import Mathlib

/-!
# Verification of the Clara AI core pipeline

Shallow embedding of the pure core of the Clara AI backend
(`codeswitch_service.py`, `intent_service.py`, `report_service.py`,
`report_summarizer.py`) together with proofs of its specified properties.

Numeric modelling: Python floats are modelled as exact rationals (`ℚ`).
All confidence values reachable in this code are small decimal fractions,
far from binary-float rounding ties, so the rational model agrees with
the float computation at every value the program can produce.
`round(x, n)` is modelled by round-half-to-even on rationals, matching
Python's rounding mode.

String modelling: Python `str.lower()` is modelled as ASCII lowercasing
(the only cased characters occurring in this code base are ASCII; Tamil
and Malayalam characters are uncased).  The regex class `\w` is modelled
as ASCII alphanumerics, the underscore, and every non-ASCII code point
(the inputs of this system contain non-ASCII characters only from the
Tamil and Malayalam blocks, all of which are `\w` in Python).
-/

/-- Python round-half-to-even of a rational to an integer. -/
def roundHalfEven (q : ℚ) : ℤ :=
  if q - Int.floor q < 1/2 then Int.floor q
  else if 1/2 < q - Int.floor q then Int.floor q + 1
  else if Int.floor q % 2 = 0 then Int.floor q else Int.floor q + 1

/-- Python `round(x, 2)` on the rational model. -/
def round2q (q : ℚ) : ℚ := (roundHalfEven (q * 100) : ℚ) / 100

/-- Python `round(x, 3)` on the rational model. -/
def round3q (q : ℚ) : ℚ := (roundHalfEven (q * 1000) : ℚ) / 1000

/-- The Python whitespace characters recognised by `str.split()` / `\s`. -/
def isPyWs (c : Char) : Bool :=
  c = ' ' || c = '\t' || c = '\n' || c = '\r' || c = '\x0b' || c = '\x0c'

/-- Python `str.lower()` (ASCII model, see header). -/
def pyLower (s : String) : String := ⟨s.data.map Char.toLower⟩

/-- Python `str.strip()`. -/
def pyStrip (s : String) : String :=
  ⟨((s.data.dropWhile isPyWs).reverse.dropWhile isPyWs).reverse⟩

/-- Maximal non-whitespace runs of a character list (`acc` is the current
run, reversed). -/
def wsTokens : List Char → List Char → List String
  | [], acc => if acc.isEmpty then [] else [⟨acc.reverse⟩]
  | c :: rest, acc =>
    if isPyWs c then
      if acc.isEmpty then wsTokens rest [] else ⟨acc.reverse⟩ :: wsTokens rest []
    else wsTokens rest (c :: acc)

/-- Python `str.split()` with no argument: split on whitespace runs,
dropping empty pieces. -/
def pySplitWs (s : String) : List String := wsTokens s.data []

/-- Python `str.replace(pat, repl)` (non-overlapping, left to right;
fuel-indexed scan, the fuel being the input length). -/
def replaceList (pat repl : List Char) : ℕ → List Char → List Char
  | 0, cs => cs
  | _ + 1, [] => []
  | fuel + 1, c :: rest =>
    if pat ≠ [] ∧ pat.isPrefixOf (c :: rest) then
      repl ++ replaceList pat repl fuel ((c :: rest).drop pat.length)
    else c :: replaceList pat repl fuel rest

/-- Python `s.replace(pat, repl)` for a non-empty pattern. -/
def pyReplace (s pat repl : String) : String :=
  ⟨replaceList pat.data repl.data s.data.length s.data⟩

/-- Does `needle` occur as a contiguous substring?  Python's `in`. -/
def subOccurs (needle : List Char) : List Char → Bool
  | [] => needle.isEmpty
  | c :: rest => needle.isPrefixOf (c :: rest) || subOccurs needle rest

/-- Python `needle in hay` on strings. -/
def pyContains (hay needle : String) : Bool := subOccurs needle.data hay.data

/-! ## codeswitch_service.py -/

/-- The five language tags produced by the code-switch analyser. -/
inductive Lang where
  | ta | ml | en | mixed | unk
deriving DecidableEq, Repr

instance : Fintype Lang :=
  ⟨⟨[Lang.ta, Lang.ml, Lang.en, Lang.mixed, Lang.unk], by decide⟩,
   fun x => by cases x <;> decide⟩

/-- `_char_lang`: language code of one character, by Unicode block
(Tamil 0x0B80–0x0BFF, Malayalam 0x0D00–0x0D7F, ASCII alphabetic → en). -/
def charLang (ch : Char) : Lang :=
  if 0x0B80 ≤ ch.toNat ∧ ch.toNat ≤ 0x0BFF then Lang.ta
  else if 0x0D00 ≤ ch.toNat ∧ ch.toNat ≤ 0x0D7F then Lang.ml
  else if (65 ≤ ch.toNat ∧ ch.toNat ≤ 90) ∨ (97 ≤ ch.toNat ∧ ch.toNat ≤ 122) then Lang.en
  else Lang.unk

/-- Model of the regex class `\w` (see header): ASCII alphanumerics,
the underscore, and non-ASCII code points. -/
def isWordChar (c : Char) : Bool :=
  decide ((48 ≤ c.toNat ∧ c.toNat ≤ 57) ∨ (65 ≤ c.toNat ∧ c.toNat ≤ 90) ∨
    (97 ≤ c.toNat ∧ c.toNat ≤ 122) ∨ c = '_' ∨ 0x80 ≤ c.toNat)

/-- `re.sub(r"[^\w]", "", token)`: the word characters of a token. -/
def stripNonWord (t : String) : List Char := t.data.filter isWordChar

/-- One step of `collections.Counter` construction: increment the count
for `k`, preserving first-insertion order of keys. -/
def bump : List (Lang × ℕ) → Lang → List (Lang × ℕ)
  | [], k => [(k, 1)]
  | (a, n) :: t, k => if a = k then (a, n + 1) :: t else (a, n) :: bump t k

/-- `collections.Counter(cs)` as an insertion-ordered association list. -/
def countLangs (cs : List Lang) : List (Lang × ℕ) := cs.foldl bump []

/-- `Counter.most_common(1)[0]`: first key attaining the maximal count
(Python's sort is stable, so ties keep insertion order). -/
def mostCommon : List (Lang × ℕ) → Lang × ℕ
  | [] => (Lang.unk, 0)
  | x :: t => t.foldl (fun b y => if y.2 > b.2 then y else b) x

/-- Reasons attached to token classifications (information content of the
reason strings of `_classify_token`). -/
inductive ClsReason where
  | punctuation
  | hyphenMixed
  | allOneBlock (l : Lang)
  | dominantScript (l : Lang) (domCount total : ℕ)
  | mixedScripts (counts : List (Lang × ℕ))
deriving DecidableEq, Repr

/-- `_classify_token`: classify a token → (lang, confidence, reason). -/
def classifyToken (token : String) : Lang × ℚ × ClsReason :=
  let cleaned := stripNonWord token
  if cleaned = [] then (Lang.unk, 1/2, ClsReason.punctuation)
  else
    let langCounts := countLangs (cleaned.map charLang)
    let dm := mostCommon langCounts
    let total : ℕ := cleaned.length
    let ratio : ℚ := (dm.2 : ℚ) / (total : ℚ)
    if token.data.contains '-' ∧ 1 < langCounts.length then
      (Lang.mixed, 7/10, ClsReason.hyphenMixed)
    else if langCounts.length = 1 then
      (dm.1, min (95/100) (8/10 + 15/100 * ratio), ClsReason.allOneBlock dm.1)
    else if 8/10 ≤ ratio then
      (dm.1, round2q ratio, ClsReason.dominantScript dm.1 dm.2 total)
    else
      (Lang.mixed, round2q ratio, ClsReason.mixedScripts langCounts)

/-- One analysed token (`TokenAnalysis` in `models/schemas.py`). -/
structure TokenAnalysis where
  token : String
  lang : Lang
  confidence : ℚ
  reason : ClsReason
deriving DecidableEq, Repr

/-- `CodeSwitchResult` in `models/schemas.py`. -/
structure CodeSwitchResult where
  tokens : List TokenAnalysis
  language_mix : List (Lang × ℚ)
deriving DecidableEq, Repr

/-- `analyse_codeswitch`: tokenise, classify each token, and compute the
language-mix proportions. -/
def analyseCodeswitch (text : String) : CodeSwitchResult :=
  let rawTokens := pySplitWs text
  let analyses := rawTokens.map (fun tok =>
    let c := classifyToken tok
    { token := tok, lang := c.1, confidence := c.2.1, reason := c.2.2 })
  let langCounter := countLangs (analyses.map TokenAnalysis.lang)
  let total : ℕ := max analyses.length 1
  let language_mix := langCounter.map (fun e => (e.1, round3q ((e.2 : ℚ) / (total : ℚ))))
  { tokens := analyses, language_mix := language_mix }

/-! ## intent_service.py -/

/-- Urgency levels (`Literal["low","medium","high"]` in the schema). -/
inductive Urgency where
  | low | medium | high
deriving DecidableEq, Repr

/-- `IntentResult` in `models/schemas.py` (follow-up questions default to `[]`). -/
structure IntentResult where
  intent : String
  device : String
  symptom : String
  suspected_component : Option String
  user_query : String
  urgency : Urgency
  confidence_score : ℚ
  follow_up_questions : List String := []
deriving DecidableEq, Repr

/-- `_DEVICES` keyword table. -/
def clDEVICES : List (String × List String) :=
  [("motor pump", ["motor pump", "motor", "pump", "மோட்டார்", "பம்ப்", "മോട്ടർ", "പമ്പ്"]),
   ("transformer", ["transformer", "டிரான்ஸ்ஃபார்மர்", "ട്രാൻസ്ഫോർമർ"]),
   ("inverter", ["inverter", "இன்வெர்ட்டர்", "ഇൻവെർട്ടർ"]),
   ("fan", ["fan", "விசிறி", "ഫാൻ"]),
   ("phone", ["phone", "mobile", "போன்", "ഫോൺ"]),
   ("compressor", ["compressor", "கம்ப்ரஸ்ஸர்", "കംപ്രസ്സർ"]),
   ("AC", ["ac", "air conditioner", "ஏசி", "എസി"])]

/-- `_SYMPTOMS` keyword table. -/
def clSYMPTOMS : List (String × List String) :=
  [("noise", ["noise", "sound", "சத்தம்", "ശബ്ദം", "ஒலி", "valiya sound"]),
   ("vibration", ["vibration", "vibrate", "அதிர்வு", "വൈബ്രേഷൻ"]),
   ("overheating",
     ["heat", "hot", "overheat", "சூடு", "ചൂട്",
      "short circuit", "current varudhu", "current koodum",
      "choodan", "choodum", "valuthu choodan"]),
   ("charging failure",
     ["not charging", "charge fail", "சார்ஜ் ஆகல", "ചാർജ്",
      "charge aagala", "charge aagunnilla"]),
   ("not working",
     ["not working", "stopped", "வேலை செய்யல", "പ്രവർത്തിക്കുന്നില്ല",
      "aagala", "aagunnilla", "pochu", "illama",
      "cheyyunnilla", "kurayunnu", "slow"]),
   ("low battery", ["low battery", "battery drain", "drain", "பேட்டரி குறை", "ബാറ്ററി"])]

/-- `_COMPONENTS` keyword table. -/
def clCOMPONENTS : List (String × List String) :=
  [("capacitor", ["capacitor", "cap", "கெபாசிட்டர்", "കപ്പാസിറ്റർ"]),
   ("filter", ["filter", "பில்டர்", "ഫിൽട്ടർ"]),
   ("wiring", ["wiring", "wire", "cable", "வயரிங்", "വയറിംഗ്"]),
   ("bearing", ["bearing", "பேரிங்", "ബെയറിംഗ്"]),
   ("circuit board", ["circuit", "board", "pcb", "சர்க்யூட்", "സർക്യൂട്ട്"])]

/-- `_match`: first table entry one of whose keywords occurs in the
lower-cased text, at confidence 0.85; otherwise ("unknown", 0.3). -/
def matchTable (textLower : String) (lookup : List (String × List String)) : String × ℚ :=
  match lookup.find? (fun e => e.2.any (fun kw => pyContains textLower (pyLower kw))) with
  | some e => (e.1, 85/100)
  | none => ("unknown", 3/10)

/-- `urgency_map.get(symptom, "low")` in `_rule_extract`. -/
def urgencyOfSymptom (symptom : String) : Urgency :=
  if symptom = "overheating" ∨ symptom = "not working" ∨ symptom = "charging failure" then
    Urgency.high
  else if symptom = "noise" ∨ symptom = "vibration" ∨ symptom = "low battery" then
    Urgency.medium
  else Urgency.low

/-- `_rule_extract`: the deterministic keyword-matching extractor. -/
def ruleExtract (text : String) : IntentResult :=
  let lower := pyLower text
  let dm := matchTable lower clDEVICES
  let sm := matchTable lower clSYMPTOMS
  let cm := matchTable lower clCOMPONENTS
  let device := dm.1
  let symptom := sm.1
  let component := cm.1
  let intent :=
    if device ≠ "unknown" ∧ symptom ≠ "unknown" then
      "report_" ++ pyReplace symptom " " "_"
    else if device ≠ "unknown" then "report_general_issue"
    else "unclassified"
  let conf0 := round2q ((dm.2 + sm.2 + cm.2) / 3)
  let confidence := if symptom = "unknown" then max (conf0 - 15/100) (1/10) else conf0
  { intent := intent
    device := device
    symptom := symptom
    suspected_component := if component ≠ "unknown" then some component else none
    user_query := text
    urgency := urgencyOfSymptom symptom
    confidence_score := confidence }

/-- A chat message (`{"role": ..., "content": ...}`). -/
structure ChatMsg where
  role : String
  content : String
deriving DecidableEq, Repr

/-- The shared `_SYSTEM_PROMPT` sent to both LLM extractors. -/
def clSystemPrompt : String :=
  "You are a structured intent extraction engine for an enterprise field-service platform.\nReturn STRICT JSON only. No explanations. No extra text.\nRequired fields:\n  intent             – short snake_case action label (e.g. report_overheating)\n  device             – equipment name\n  symptom            – observed fault\n  suspected_component – component most likely at fault (null if unknown)\n  user_query         – restate the query in professional English\n  urgency            – one of: low | medium | high\n  confidence_score   – float 0–1\n  follow_up_questions – list of 1-3 clarifying questions an engineer should ask next\nUse precise, professional field-service terminology."

/-- The message list built by `_groq_extract` / `_llm_extract`. -/
def intentMessages (text : String) : List ChatMsg :=
  [⟨"system", clSystemPrompt⟩, ⟨"user", "Transcript: " ++ text⟩]

/-- Outcome of one provider chat call: `RuntimeError` or the reply text
(the `content` field of the returned dict). -/
def CallFn : Type := List ChatMsg → Except Unit String

/-- `_call_and_parse`: call the provider, parse the reply, retry once with a
repair message on invalid JSON.  `parse raw text` abstracts
`_parse_intent_json(raw, text)` (whose JSON decoding is delegated to the
`json` library); the claims condition only on whether it succeeds. -/
def callAndParse (callFn : CallFn) (parse : String → String → Option IntentResult)
    (messages : List ChatMsg) (text : String) : Option IntentResult :=
  match callFn messages with
  | .error _ => none
  | .ok raw =>
    match parse raw text with
    | some parsed => some parsed
    | none =>
      let retryMessages := messages ++
        [⟨"assistant", raw⟩,
         ⟨"user", "Fix the output into STRICT valid JSON only."⟩]
      match callFn retryMessages with
      | .error _ => none
      | .ok retryRaw => parse retryRaw text

/-- `_groq_extract`. -/
def groqExtract (groqCall : CallFn) (parse : String → String → Option IntentResult)
    (text : String) : Option IntentResult :=
  callAndParse groqCall parse (intentMessages text) text

/-- `_llm_extract` (Featherless). -/
def llmExtract (featherlessCall : CallFn) (parse : String → String → Option IntentResult)
    (text : String) : Option IntentResult :=
  callAndParse featherlessCall parse (intentMessages text) text

/-- `extract_intent`: route to the best available extractor;
`llmProvider` is `get_settings().llm_provider`. -/
def extractIntent (llmProvider : String) (groqCall featherlessCall : CallFn)
    (parse : String → String → Option IntentResult) (text : String) : IntentResult :=
  let provider := pyLower llmProvider
  if provider = "groq" then
    match groqExtract groqCall parse text with
    | some result => result
    | none =>
      match llmExtract featherlessCall parse text with
      | some result => result
      | none => ruleExtract text
  else if provider = "featherless" then
    match llmExtract featherlessCall parse text with
    | some result => result
    | none => ruleExtract text
  else ruleExtract text

/-! ## report_service.py -/

/-- One row of `_RISK_MATRIX`. -/
structure Risk where
  level : String
  colour : String
  sla : String
  escalation : String
deriving DecidableEq, Repr

/-- `_RISK_MATRIX.get(urgency, _RISK_MATRIX["low"])` (total on the urgency
enumeration, so the default row is the `low` row). -/
def riskMatrix : Urgency → Risk
  | .high =>
    ⟨"CRITICAL", "🔴", "Immediate response required — SLA: 2 hours",
     "L3 Field Engineer + Operations Manager"⟩
  | .medium =>
    ⟨"ELEVATED", "🟡", "Scheduled intervention — SLA: 24 hours",
     "L2 Technical Supervisor"⟩
  | .low =>
    ⟨"MONITORED", "🟢", "Routine maintenance queue — SLA: 72 hours",
     "L1 Field Technician"⟩

/-- Association-list lookup with default (`dict.get(k, d)`). -/
def lookupD {α : Type} (m : List (String × α)) (k : String) (d : α) : α :=
  match m.find? (fun e => decide (e.1 = k)) with
  | some e => e.2
  | none => d

/-- `_HYPOTHESIS_MAP`. -/
def hypothesisMap : List (String × String) :=
  [("overheating",
    "Thermal anomaly consistent with inadequate heat dissipation, potential capacitor degradation, or blocked ventilation channels. Possibility of insulation breakdown under sustained thermal stress."),
   ("noise",
    "Acoustic signatures indicate mechanical imbalance, bearing wear, or resonance in mountings. Loose internal components cannot be excluded."),
   ("vibration",
    "Vibrational profile suggests rotor imbalance, misalignment of drive shaft, or structural resonance. Associated wear on bearings and seals is probable."),
   ("not working",
    "Complete functional failure; potential root causes include power supply fault, control circuit interruption, blown fuse, or main component failure."),
   ("charging failure",
    "Charging subsystem anomaly detected. Probable causes: BMS fault, degraded battery cells, or charger-side hardware failure."),
   ("low battery",
    "Accelerated battery discharge pattern. Possible causes include cell aging, parasitic drain, or elevated load mismatch with power source rating."),
   ("unknown",
    "Insufficient telemetry for definitive hypothesis. Field inspection and diagnostic instruments required for root cause identification.")]

/-- `_ACTIONS_MAP`. -/
def actionsMap : List (String × List String) :=
  [("overheating",
    ["Immediately isolate device from power supply to prevent thermal runaway.",
     "Conduct infrared thermal scan of all exposed components.",
     "Inspect and replace cooling fans, heat sinks, and ventilation filters.",
     "Perform capacitor ESR test; replace if out of specification.",
     "Verify ambient operating temperature is within manufacturer limits."]),
   ("noise",
    ["Perform acoustic fingerprinting to isolate frequency signatures.",
     "Inspect bearings, mounts, and mechanical couplings for wear.",
     "Check rotor balance and re-align if deviation exceeds 0.02 mm.",
     "Tighten all fasteners and panel covers per torque specification.",
     "Log decibel readings at 1 m distance for warranty and compliance records."]),
   ("vibration",
    ["Conduct vibration spectral analysis (accelerometer, 0–2 kHz sweep).",
     "Inspect drive shaft alignment and coupling condition.",
     "Replace worn bearings; verify dynamic balance post-replacement.",
     "Assess structural mounts and anti-vibration pads for fatigue.",
     "Schedule follow-up measurement 30 days post-repair."]),
   ("not working",
    ["Verify input voltage and phase continuity at all supply terminals.",
     "Inspect fuses, MCBs, and contactors; replace any open circuits.",
     "Perform continuity and insulation resistance tests on main windings.",
     "Check control PCB for burnt tracks, swollen capacitors, or failed ICs.",
     "Document failure mode and part numbers for procurement."]),
   ("charging failure",
    ["Measure charger output voltage and current under load.",
     "Perform battery internal resistance test (EIS or DC-IR method).",
     "Inspect BMS communication lines and firmware version.",
     "Replace charging module if output deviation > 5% of rated spec.",
     "Log charge cycle count against manufacturer warranty threshold."]),
   ("low battery",
    ["Conduct full charge-discharge cycle test; record capacity vs. rated.",
     "Measure parasitic standby drain with current clamp.",
     "Inspect cell voltage balance across battery pack.",
     "Recalibrate BMS state-of-charge algorithm if delta > 10%.",
     "Plan battery replacement if capacity below 80% of original rating."]),
   ("unknown",
    ["Deploy field technician for full visual and electrical inspection.",
     "Record all observable symptoms with photographic evidence.",
     "Run end-to-end diagnostic test suite from service manual.",
     "Escalate with full inspection report to L2 supervisor.",
     "Hold device offline until fault classification is confirmed."])]

/-- `_GERMAN_SUMMARY_MAP`. -/
def germanSummaryMap : List (String × String) :=
  [("overheating",
    "Kritische Temperaturanomalie erkannt. Sofortige Abschaltung und thermische Inspektion durch qualifiziertes Fachpersonal erforderlich."),
   ("noise",
    "Akustische Auffälligkeit registriert. Mechanische Inspektion und Lagerprüfung innerhalb von 24 Stunden empfohlen."),
   ("vibration",
    "Vibrationsmuster außerhalb der Toleranz festgestellt. Wellenausrichtung und Lagerinspektion einzuleiten."),
   ("not working",
    "Vollständiger Geräteausfall. Sofortige Fehlerdiagnose und Ersatzteilverfügbarkeit prüfen."),
   ("charging failure",
    "Ladesystem-Fehler erkannt. BMS und Ladeeinheit auf Funktion prüfen."),
   ("low battery",
    "Beschleunigter Kapazitätsverlust festgestellt. Zellanalyse und Kalibrierung des Batteriemanagementsystems empfohlen."),
   ("unknown",
    "Symptom nicht eindeutig klassifizierbar. Vollständige Vor-Ort-Diagnose durch Servicetechniker erforderlich.")]

/-- `_GENERIC_SYMPTOMS`. -/
def genericSymptoms : List String := ["unknown", "issue", "problem", ""]

/-- `_CONFIDENCE_CAP_GENERIC`. -/
def confidenceCapGeneric : ℚ := 85/100

/-- `_CONFIDENCE_CAP_SPECIFIC`. -/
def confidenceCapSpecific : ℚ := 95/100

/-- `_apply_confidence_cap`. -/
def applyConfidenceCap (confidence : ℚ) (symptom : String) : ℚ :=
  let cap :=
    if pyStrip (pyLower symptom) ∈ genericSymptoms then confidenceCapGeneric
    else confidenceCapSpecific
  min confidence cap

/-- A fixed UTC clock value (the `datetime.now(timezone.utc)` input). -/
structure PyDateTime where
  year : ℕ
  month : ℕ
  day : ℕ
  hour : ℕ
  minute : ℕ
  second : ℕ
deriving DecidableEq, Repr

/-- Zero-pad a natural number to `w` digits (`%02d`-style). -/
def padZero (w : ℕ) (n : ℕ) : String :=
  let s := toString n
  if s.length < w then ⟨List.replicate (w - s.length) '0'⟩ ++ s else s

/-- `%B`: full English month name. -/
def monthName : ℕ → String
  | 1 => "January" | 2 => "February" | 3 => "March" | 4 => "April"
  | 5 => "May" | 6 => "June" | 7 => "July" | 8 => "August"
  | 9 => "September" | 10 => "October" | 11 => "November" | 12 => "December"
  | _ => ""

/-- `now.strftime("%Y-%m-%dT%H:%M:%SZ")`. -/
def fmtIso (t : PyDateTime) : String :=
  padZero 4 t.year ++ "-" ++ padZero 2 t.month ++ "-" ++ padZero 2 t.day ++ "T" ++
  padZero 2 t.hour ++ ":" ++ padZero 2 t.minute ++ ":" ++ padZero 2 t.second ++ "Z"

/-- `now.strftime("%d %B %Y, %H:%M UTC")`. -/
def fmtHuman (t : PyDateTime) : String :=
  padZero 2 t.day ++ " " ++ monthName t.month ++ " " ++ padZero 4 t.year ++ ", " ++
  padZero 2 t.hour ++ ":" ++ padZero 2 t.minute ++ " UTC"

/-- `now.strftime("%Y%m%d")`. -/
def fmtYMD (t : PyDateTime) : String :=
  padZero 4 t.year ++ padZero 2 t.month ++ padZero 2 t.day

/-- The configuration fields consumed by the core (`config.Settings`). -/
structure ClaraSettings where
  llm_provider : String := "dummy"
  enterprise_mode : Bool := true
deriving DecidableEq, Repr

/-- Python `{q:.0%}` format: percentage with 0 decimals. -/
def fmtPercent (q : ℚ) : String := toString (roundHalfEven (q * 100)) ++ "%"

/-- Python `{q:.0f}` format on the rational model. -/
def fmtF0 (q : ℚ) : String := toString (roundHalfEven q)

/-- `lang.upper()` for the language tags. -/
def langUpper : Lang → String
  | .ta => "TA" | .ml => "ML" | .en => "EN" | .mixed => "MIXED" | .unk => "UNK"

/-- `intent.urgency.upper()`. -/
def urgencyUpper : Urgency → String
  | .low => "LOW" | .medium => "MEDIUM" | .high => "HIGH"

/-- `intent.urgency` rendered as its schema string. -/
def urgencyStr : Urgency → String
  | .low => "low" | .medium => "medium" | .high => "high"

/-- The five completeness checks of `generate_report`. -/
def completenessChecks (transcript : String) (intent : IntentResult) : List (String × Bool) :=
  let symptomLower := pyStrip (pyLower intent.symptom)
  let deviceLower := pyStrip (pyLower intent.device)
  let compLower := pyStrip (pyLower (intent.suspected_component.getD ""))
  [("Transcript non-empty", pyStrip transcript ≠ ""),
   ("Device identified", ¬ (deviceLower = "" ∨ deviceLower = "unknown")),
   ("Symptom identified", symptomLower ∉ genericSymptoms),
   ("Component identified", ¬ (compLower = "" ∨ compLower = "unknown")),
   ("Urgency set",
     intent.urgency = Urgency.low ∨ intent.urgency = Urgency.medium ∨
       intent.urgency = Urgency.high)]

/-- Number of passed completeness checks. -/
def completenessPassed (transcript : String) (intent : IntentResult) : ℕ :=
  (completenessChecks transcript intent).countP (fun e => e.2)

/-- `completeness_pct = completeness_passed / len(completeness_checks)`. -/
def completenessPct (transcript : String) (intent : IntentResult) : ℚ :=
  (completenessPassed transcript intent : ℚ) /
    ((completenessChecks transcript intent).length : ℚ)

/-- The assumption-flag list of `generate_report` (`is_multilingual` is
`len(codeswitch.language_mix) > 1`). -/
def assumptionFlags (intent : IntentResult) (isMultilingual : Bool) : List String :=
  let symptomLower := pyStrip (pyLower intent.symptom)
  let deviceLower := pyStrip (pyLower intent.device)
  let compLower := pyStrip (pyLower (intent.suspected_component.getD ""))
  let flags :=
    (if deviceLower = "" ∨ deviceLower = "unknown" then
      ["Device defaulted to 'unknown' — field report did not name a specific unit."]
     else []) ++
    (if symptomLower ∈ genericSymptoms then
      ["Symptom could not be specifically classified; generic fault branch applied."]
     else []) ++
    (if compLower = "" ∨ compLower = "unknown" then
      ["Suspected component not derived; hypothesis uses worst-case fault tree."]
     else []) ++
    (if ¬ isMultilingual then
      ["Input was single-language; code-switch analysis returned no mixed tokens."]
     else [])
  if flags = [] then
    ["No significant assumptions detected — high-confidence extraction."]
  else flags

/-- `generate_report`: the full markdown dossier.  The ambient effects of the
source (`datetime.now`, `get_settings()`, the process string hash) are
explicit inputs `now`, `settings`, `hashFn`. -/
def generateReport (now : PyDateTime) (settings : ClaraSettings) (hashFn : String → ℤ)
    (transcript : String) (codeswitch : CodeSwitchResult) (intent : IntentResult) : String :=
  let tsIso := fmtIso now
  let tsHuman := fmtHuman now
  let rawConfidence := intent.confidence_score
  let cappedConfidence := applyConfidenceCap rawConfidence intent.symptom
  let wasCapped := cappedConfidence < rawConfidence
  let risk := riskMatrix intent.urgency
  let hypothesis := lookupD hypothesisMap intent.symptom (lookupD hypothesisMap "unknown" "")
  let actions := lookupD actionsMap intent.symptom (lookupD actionsMap "unknown" [])
  let langCount := codeswitch.language_mix.length
  let isMultilingual := 1 < langCount
  let langLines := String.intercalate "\n" (codeswitch.language_mix.enum.map
    (fun ip =>
      "| " ++ langUpper ip.2.1 ++ " | " ++ fmtF0 (ip.2.2 * 100) ++ "% | " ++
      (if ip.1 = 0 then "Primary" else "Secondary") ++ " |"))
  let langStyle :=
    if isMultilingual then "multilingual field communication (code-switched)"
    else "informal field communication (single language)"
  let langSwitchNote :=
    if isMultilingual then "Yes — multilingual utterance" else "No — monolingual utterance"
  let actionList := String.intercalate "\n" (actions.enum.map
    (fun ia => toString (ia.1 + 1) ++ ". " ++ ia.2))
  let componentNote :=
    match intent.suspected_component with
    | some comp =>
      if comp ≠ "" ∧ comp ≠ "unknown" then "Suspected component: **" ++ comp ++ "**"
      else "Suspected component: *Not identified at this stage*"
    | none => "Suspected component: *Not identified at this stage*"
  let symptomLower := pyStrip (pyLower intent.symptom)
  let deviceLower := pyStrip (pyLower intent.device)
  let compLower := pyStrip (pyLower (intent.suspected_component.getD ""))
  let confFactors : List String :=
    [if deviceLower ≠ "" ∧ deviceLower ≠ "unknown" then
       "Device identifier resolved (`" ++ intent.device ++ "`)"
     else "Device identifier **not resolved** — reduces confidence",
     if symptomLower ≠ "" ∧ symptomLower ∉ genericSymptoms then
       "Specific symptom matched (`" ++ intent.symptom ++ "`)"
     else "Symptom is generic or unresolved — limits confidence",
     if compLower ≠ "" ∧ compLower ≠ "unknown" then
       "Suspected component identified (`" ++ intent.suspected_component.getD "" ++ "`)"
     else "No suspected component identified"] ++
    (if isMultilingual then
      ["Code-switched input: pattern recognition reliability may be reduced"] else []) ++
    (if wasCapped then
      ["Raw score " ++ fmtPercent rawConfidence ++ " capped at " ++
       fmtPercent cappedConfidence ++ " (generic symptom ceiling: " ++
       fmtPercent confidenceCapGeneric ++ ")"] else [])
  let confReasoning := String.intercalate "\n" (confFactors.map (fun f => "- " ++ f))
  let checks := completenessChecks transcript intent
  let passed := completenessPassed transcript intent
  let pct := completenessPct transcript intent
  let completenessRows := String.intercalate "\n" (checks.map
    (fun e => "| " ++ e.1 ++ " | " ++ (if e.2 then "✅ Yes" else "❌ No") ++ " |"))
  let flags := assumptionFlags intent isMultilingual
  let assumptionList := String.intercalate "\n" (flags.map (fun f => "- " ++ f))
  let refId := "CLARA-" ++ fmtYMD now ++ "-" ++ padZero 5 ((hashFn transcript).natAbs % 100000)
  let dossier :=
    "# CLARA AI — ENTERPRISE INCIDENT DOSSIER\n\n" ++
    "**Reference ID:** " ++ refId ++ "\n" ++
    "**Classification:** " ++ risk.colour ++ " " ++ risk.level ++ "\n" ++
    "**Generated:** " ++ tsHuman ++ "\n" ++
    "**System Version:** Clara AI v0.6 | Enterprise Mode " ++
    (if settings.enterprise_mode then "ENABLED" else "DISABLED") ++ "\n\n---\n\n" ++
    "## 1. Executive Summary\n\n" ++
    "A field incident has been registered and triaged by the Clara AI Vernacular Navigation Engine.\n" ++
    "The system detected a **" ++ intent.symptom ++ "** condition on a **" ++
    intent.device ++ "** unit,\nreported via " ++ langStyle ++
    ". Risk assessment classification: **" ++ risk.level ++ "**.\n" ++
    "Confidence score of intent extraction: **" ++ fmtPercent cappedConfidence ++ "**.\n" ++
    "Data completeness: **" ++ fmtPercent pct ++ "** (" ++ toString passed ++ "/" ++
    toString checks.length ++ " fields resolved).\n" ++
    "Recommended SLA: **" ++ risk.sla ++ "**.\n\n---\n\n" ++
    "## 2. Incident Description\n\n" ++
    "**Verbatim Field Report (Transcribed):**\n\n" ++
    "> " ++ transcript ++ "\n\n" ++
    "The report was received as " ++ langStyle ++ ", processed through the Clara AI ASR and\n" ++
    "code-switch analysis pipeline, and automatically routed for structured intent extraction\n" ++
    "and escalation.\n\n---\n\n" ++
    "## 3. Language Analysis\n\n" ++
    "| Language | Composition | Role |\n" ++
    "|----------|-------------|------|\n" ++
    langLines ++ "\n\n" ++
    "- **Total tokens analysed:** " ++ toString codeswitch.tokens.length ++ "\n" ++
    "- **Code-switching detected:** " ++ langSwitchNote ++ "\n\n---\n\n" ++
    "## 4. Intent & Device Details\n\n" ++
    "| Field | Extracted Value |\n" ++
    "|-------|----------------|\n" ++
    "| **Intent** | " ++ intent.intent ++ " |\n" ++
    "| **Device** | " ++ intent.device ++ " |\n" ++
    "| **Reported Symptom** | " ++ intent.symptom ++ " |\n" ++
    "| **Urgency Level** | " ++ urgencyUpper intent.urgency ++ " |\n" ++
    "| **Confidence Score** | " ++ fmtPercent cappedConfidence ++ " |\n\n" ++
    componentNote ++ "\n\n---\n\n" ++
    "## 5. Technical Hypothesis\n\n" ++
    hypothesis ++ "\n\n" ++
    "This hypothesis is automatically generated based on symptom classification and industry\n" ++
    "fault patterns. It is intended to guide — not replace — qualified field diagnosis.\n\n---\n\n" ++
    "## 6. Risk Level Assessment\n\n" ++
    "| Dimension | Assessment |\n" ++
    "|-----------|------------|\n" ++
    "| **Risk Classification** | " ++ risk.colour ++ " " ++ risk.level ++ " |\n" ++
    "| **Urgency** | " ++ urgencyUpper intent.urgency ++ " |\n" ++
    "| **SLA Commitment** | " ++ risk.sla ++ " |\n" ++
    "| **Business Impact** | " ++
    (if intent.urgency = Urgency.high then "High — potential operational downtime"
     else if intent.urgency = Urgency.medium then "Medium — reduced operational efficiency"
     else "Low — cosmetic or monitored condition") ++ " |\n" ++
    "| **Safety Concern** | " ++
    (if intent.urgency = Urgency.high then "Yes — isolate device immediately"
     else if intent.urgency = Urgency.medium then "Monitor — do not exceed operational limits"
     else "No immediate safety risk") ++ " |\n\n---\n\n" ++
    "## 7. Recommended Actions\n\n" ++
    actionList ++ "\n\n---\n\n" ++
    "## 8. Escalation Path\n\n" ++
    "**Primary Escalation:** " ++ risk.escalation ++ "\n\n" ++
    "| Level | Role | Trigger |\n" ++
    "|-------|------|---------|\n" ++
    "| L1 | Field Technician | Initial inspection and data collection |\n" ++
    "| L2 | Technical Supervisor | Fault confirmation and parts approval |\n" ++
    "| L3 | Senior Field Engineer | Complex repair or component replacement |\n" ++
    "| L4 | OEM / Vendor Support | Warranty claim or design-level fault |\n" ++
    "| L5 | Operations Manager | SLA breach or safety-critical incident |\n\n" ++
    "> **Note:** Escalate to next level if fault is unresolved within the defined SLA window.\n\n---\n\n" ++
    "## 9. Confidence Justification\n\n" ++
    "**Final confidence score: " ++ fmtPercent cappedConfidence ++ "**" ++
    (if wasCapped then
      "  *(score was capped from raw " ++ fmtPercent rawConfidence ++ ")*" else "") ++ "\n\n" ++
    confReasoning ++ "\n\n---\n\n" ++
    "## 10. Data Completeness\n\n" ++
    "**Score: " ++ fmtPercent pct ++ "** (" ++ toString passed ++ " / " ++
    toString checks.length ++ " required fields populated)\n\n" ++
    "| Field | Status |\n" ++
    "|-------|--------|\n" ++
    completenessRows ++ "\n\n---\n\n" ++
    "## 11. Assumption Flags\n\n" ++
    assumptionList ++ "\n\n" ++
    "> Flags above describe where the AI system applied defaults or inference due to incomplete\n" ++
    "> field data. A certified engineer must verify all flagged items before actioning this report.\n"
  let dossier :=
    if settings.enterprise_mode then
      let crossLangSummary :=
        "**English:** Risk level " ++ risk.level ++ ". Device: " ++ intent.device ++
        ". Symptom: " ++ intent.symptom ++ ". " ++ risk.sla ++ ".\n\n" ++
        "**Tamil (தமிழ்):** சாதனம்: " ++ intent.device ++ ". அறிகுறி: " ++ intent.symptom ++
        ". முன்னுரிமை: " ++ urgencyUpper intent.urgency ++ ".\n\n" ++
        "**Malayalam (മലയാളം):** ഉപകരണം: " ++ intent.device ++ ". ലക്ഷണം: " ++ intent.symptom ++
        ". മുൻഗണന: " ++ urgencyUpper intent.urgency ++ ".\n\n" ++
        "**Deutsch:** " ++ lookupD germanSummaryMap intent.symptom
          (lookupD germanSummaryMap "unknown" "")
      dossier ++ "\n---\n\n## 12. Cross-Language Executive Summary\n\n" ++
        crossLangSummary ++ "\n"
    else dossier
  dossier ++ "\n---\n\n*This dossier was automatically generated by Clara AI Enterprise v0.6 at `" ++
    tsIso ++ "`.*\n*All AI-generated content must be reviewed and validated by a certified field engineer before action.*\n"

/-! ## report_summarizer.py -/

/-- `\s*`: drop a maximal whitespace run. -/
def dropWs (cs : List Char) : List Char := cs.dropWhile isPyWs

/-- Case-insensitive literal match at the head of the input (the pattern is
given lower-cased); returns the remainder on success. -/
def matchLitCI : List Char → List Char → Option (List Char)
  | [], cs => some cs
  | _ :: _, [] => none
  | p :: ps, c :: cs => if c.toLower = p then matchLitCI ps cs else none

/-- `\s+`: at least one whitespace character, matched greedily. -/
def matchWs1 : List Char → Option (List Char)
  | [] => none
  | c :: rest => if isPyWs c then some (dropWs rest) else none

/-- `\s*\n` with regex backtracking: consume whitespace up to and including
the last newline of the maximal whitespace run. -/
def matchWsNl (cs : List Char) : Option (List Char) :=
  let run := cs.takeWhile isPyWs
  let rest := cs.drop run.length
  let tailAfterLastNl := run.reverse.takeWhile (fun c => c ≠ '\n')
  if tailAfterLastNl.length < run.length then some (tailAfterLastNl.reverse ++ rest)
  else none

/-- Match `##\s*1\.\s*Executive\s+Summary\s*\n` (IGNORECASE) at the head. -/
def matchExecHeader (cs : List Char) : Option (List Char) :=
  (matchLitCI "##".data cs).bind fun cs1 =>
  (matchLitCI "1.".data (dropWs cs1)).bind fun cs2 =>
  (matchLitCI "executive".data (dropWs cs2)).bind fun cs3 =>
  (matchWs1 cs3).bind fun cs4 =>
  (matchLitCI "summary".data cs4).bind fun cs5 =>
  matchWsNl cs5

/-- The lookahead `(?=\n##\s|\n---|\Z)` ending the lazy capture. -/
def execLookahead : List Char → Bool
  | [] => true
  | '\n' :: rest =>
    (match rest with
     | '#' :: '#' :: c :: _ => isPyWs c
     | _ => false) ||
    (match rest with
     | '-' :: '-' :: '-' :: _ => true
     | _ => false)
  | _ => false

/-- The lazy capture `(.*?)` (DOTALL) up to the first lookahead position. -/
def lazyCapture : List Char → List Char
  | [] => []
  | c :: rest => if execLookahead (c :: rest) then [] else c :: lazyCapture rest

/-- `re.search` for the Executive-Summary section pattern: try the pattern at
each start position, leftmost match wins; returns the captured group. -/
def findExecSection : List Char → Option (List Char)
  | [] => none
  | c :: rest =>
    match matchExecHeader (c :: rest) with
    | some after => some (lazyCapture after)
    | none => findExecSection rest

/-- Match `\*\*([^*]+)\*\*` at the head: returns (group, remainder). -/
def matchBoldAt : List Char → Option (List Char × List Char)
  | '*' :: '*' :: rest =>
    let inner := rest.takeWhile (fun c => c ≠ '*')
    if inner.isEmpty then none
    else
      match rest.drop inner.length with
      | '*' :: '*' :: rest2 => some (inner, rest2)
      | _ => none
  | _ => none

/-- `re.sub(r"\*\*([^*]+)\*\*", r"\1", ·)` (fuel-indexed scan; fuel is the
input length, which bounds the number of scan steps). -/
def subBold : ℕ → List Char → List Char
  | 0, cs => cs
  | _ + 1, [] => []
  | fuel + 1, c :: rest =>
    match matchBoldAt (c :: rest) with
    | some g => g.1 ++ subBold fuel g.2
    | none => c :: subBold fuel rest

/-- Match `\*([^*]+)\*` at the head: returns (group, remainder). -/
def matchItalAt : List Char → Option (List Char × List Char)
  | '*' :: rest =>
    let inner := rest.takeWhile (fun c => c ≠ '*')
    if inner.isEmpty then none
    else
      match rest.drop inner.length with
      | '*' :: rest2 => some (inner, rest2)
      | _ => none
  | _ => none

/-- `re.sub(r"\*([^*]+)\*", r"\1", ·)`. -/
def subItal : ℕ → List Char → List Char
  | 0, cs => cs
  | _ + 1, [] => []
  | fuel + 1, c :: rest =>
    match matchItalAt (c :: rest) with
    | some g => g.1 ++ subItal fuel g.2
    | none => c :: subItal fuel rest

/-- `re.sub(r"\s+", " ", ·)`. -/
def collapseWs : ℕ → List Char → List Char
  | 0, cs => cs
  | _ + 1, [] => []
  | fuel + 1, c :: rest =>
    if isPyWs c then ' ' :: collapseWs fuel (rest.dropWhile isPyWs)
    else c :: collapseWs fuel rest

/-- Stage 1 of `_extract_executive_summary`: the headline regex search plus
markdown stripping; `none` when the regex fails or the cleaned text is empty. -/
def execSectionClean (text : String) : Option String :=
  match findExecSection text.data with
  | none => none
  | some cap =>
    let raw := pyStrip ⟨cap⟩
    let c1 := subBold raw.data.length raw.data
    let c2 := subItal c1.length c1
    let c3 := collapseWs c2.length c2
    let clean := pyStrip ⟨c3⟩
    if clean = "" then none else some clean

/-- Split a character list at newline characters (`cur` is the current
piece, reversed). -/
def splitOnNl : List Char → List Char → List String
  | [], cur => [⟨cur.reverse⟩]
  | c :: rest, cur =>
    if c = '\n' then ⟨cur.reverse⟩ :: splitOnNl rest [] else splitOnNl rest (c :: cur)

/-- `str.splitlines()` (modelled as splitting on `'\n'`; the inputs of this
system use only Unix line endings, and a trailing empty piece is inert in
the scan below). -/
def pySplitLines (s : String) : List String := splitOnNl s.data []

/-- The collection loop of stage 2 of `_extract_executive_summary`. -/
def lineScanAux : List String → Bool → List String → List String
  | [], _, acc => acc
  | line :: rest, capture, acc =>
    if pyContains (pyLower line) "executive summary" then lineScanAux rest true acc
    else if capture then
      let stripped := pyStrip line
      if "##".data.isPrefixOf stripped.data ∨ "---".data.isPrefixOf stripped.data then acc
      else
        let acc2 :=
          if stripped ≠ "" ∧ ¬ ("#".data.isPrefixOf stripped.data) then acc ++ [stripped]
          else acc
        if 5 ≤ acc2.length then acc2 else lineScanAux rest capture acc2
    else lineScanAux rest capture acc

/-- Stage 2 of `_extract_executive_summary`: up to five non-empty lines after
an "executive summary" heading, joined and markdown-stripped. -/
def lineScanExec (text : String) : Option String :=
  let collected := lineScanAux (pySplitLines text) false []
  if collected = [] then none
  else
    let t := String.intercalate " " collected
    let c1 := subBold t.data.length t.data
    let c2 := subItal c1.length c1
    some (pyStrip ⟨c2⟩)

/-- `_extract_executive_summary`: regex extraction, then the line scan, then
the first 300 characters. -/
def extractExecutiveSummary (text : String) : String :=
  match execSectionClean text with
  | some s => s
  | none =>
    match lineScanExec text with
    | some s => s
    | none => pyStrip ⟨text.data.take 300⟩

/-- The dict returned by one summarization provider. -/
structure SummaryOut where
  summary : String
  provider : String
  model : String
  latency_ms : ℕ
deriving DecidableEq, Repr

/-- The dict returned by `summarise_report`. -/
structure SummariseResult where
  executive_summary : String
  core_summary : String
  provider : String
  model : String
  latency_ms : ℕ
  fallback_used : Bool
deriving DecidableEq, Repr

/-- One provider call of the summarization chain: an exception or a result
dict (`_summarise_groq` / `_summarise_deepseek` are external calls). -/
def SummariseFn : Type := String → Except Unit SummaryOut

/-- The provider loop of `summarise_report`, followed by the regex fallback
(whose measured latency is modelled as 0). -/
def summariseLoop (reportText execSummary : String) : List SummariseFn → SummariseResult
  | [] =>
    let fb := extractExecutiveSummary reportText
    { executive_summary := execSummary, core_summary := fb,
      provider := "fallback_regex", model := "none", latency_ms := 0,
      fallback_used := true }
  | fn :: rest =>
    match fn reportText with
    | .error _ => summariseLoop reportText execSummary rest
    | .ok r =>
      if r.summary.length < 10 ∨ 1000 < r.summary.length then
        summariseLoop reportText execSummary rest
      else
        { executive_summary := execSummary, core_summary := r.summary,
          provider := r.provider, model := r.model, latency_ms := r.latency_ms,
          fallback_used := false }

/-- `summarise_report`: compute the executive summary up front, then try the
configured providers in order with length validation, falling back to the
regex extraction. -/
def summariseReport (providers : List SummariseFn) (reportText : String) : SummariseResult :=
  summariseLoop reportText (extractExecutiveSummary reportText) providers

/-! ## Claim-side definitions -/

/-- The token-classification cascade exactly as the specification words it
(§4.1): used to compare `classifyToken` against the spec. -/
def classifyCascadeSpec (token : String) : Lang × ℚ :=
  let cleaned := stripNonWord token
  if cleaned = [] then (Lang.unk, 1/2)
  else
    let counts := countLangs (cleaned.map charLang)
    let dominant := mostCommon counts
    let ratio : ℚ := (dominant.2 : ℚ) / (cleaned.length : ℚ)
    if token.data.contains '-' ∧ 1 < counts.length then (Lang.mixed, 7/10)
    else if counts.length = 1 then
      (dominant.1, min (95/100) (8/10 + 15/100 * ratio))
    else if 8/10 ≤ ratio then (dominant.1, round2q ratio)
    else (Lang.mixed, round2q ratio)

/-- The rule-based confidence as the amended claim states it: the mean of the
three table-match confidences rounded to two decimals, with the 0.15 penalty
(floor 0.1) when the symptom table is unmatched. -/
def ruleConfidenceAmended (text : String) : ℚ :=
  let lower := pyLower text
  let d := (matchTable lower clDEVICES).2
  let s := (matchTable lower clSYMPTOMS).2
  let c := (matchTable lower clCOMPONENTS).2
  let meanRounded := round2q ((d + s + c) / 3)
  if (matchTable lower clSYMPTOMS).1 = "unknown" then max (meanRounded - 15/100) (1/10)
  else meanRounded

/-- Association-list count lookup (first entry for the key, else 0); the
reference semantics for `countLangs`. -/
def cntL : List (Lang × ℕ) → Lang → ℕ
  | [], _ => 0
  | (a, n) :: t, k => if a = k then n else cntL t k

/-! ## Rounding lemmas -/

theorem abs_roundHalfEven_sub (q : ℚ) : |(roundHalfEven q : ℚ) - q| ≤ 1/2 := by
  have h1 : (Int.floor q : ℚ) ≤ q := Int.floor_le q
  have h2 : q < Int.floor q + 1 := Int.lt_floor_add_one q
  unfold roundHalfEven
  split_ifs with ha hb hc <;>
    (rw [abs_le]; constructor <;> push_cast <;> linarith)

theorem roundHalfEven_nonneg (q : ℚ) (h : 0 ≤ q) : 0 ≤ roundHalfEven q := by
  have hf : (0 : ℤ) ≤ Int.floor q := Int.le_floor.mpr (by exact_mod_cast h)
  unfold roundHalfEven
  split_ifs <;> omega

theorem abs_round3q_sub (q : ℚ) : |round3q q - q| ≤ 1/2000 := by
  have h : round3q q - q = ((roundHalfEven (q * 1000) : ℚ) - q * 1000) / 1000 := by
    unfold round3q; ring
  rw [h, abs_div]
  have h1000 : |(1000 : ℚ)| = 1000 := by norm_num
  rw [h1000]
  have := abs_roundHalfEven_sub (q * 1000)
  linarith

theorem round3q_nonneg (q : ℚ) (h : 0 ≤ q) : 0 ≤ round3q q := by
  unfold round3q
  have := roundHalfEven_nonneg (q * 1000) (by linarith)
  positivity

/-! ## Counter lemmas -/

theorem bump_snd_sum (l : List (Lang × ℕ)) (k : Lang) :
    ((bump l k).map Prod.snd).sum = (l.map Prod.snd).sum + 1 := by
  induction l with
  | nil => simp [bump]
  | cons a t ih =>
    obtain ⟨a1, a2⟩ := a
    by_cases h : a1 = k <;> simp [bump, h, ih] <;> omega

theorem foldl_bump_sum (cs : List Lang) :
    ∀ acc, ((cs.foldl bump acc).map Prod.snd).sum = (acc.map Prod.snd).sum + cs.length := by
  induction cs with
  | nil => intro acc; simp
  | cons c t ih =>
    intro acc
    rw [List.foldl_cons, ih (bump acc c), bump_snd_sum]
    simp; omega

theorem countLangs_sum (cs : List Lang) : ((countLangs cs).map Prod.snd).sum = cs.length := by
  simpa [countLangs] using foldl_bump_sum cs []

theorem bump_fst (l : List (Lang × ℕ)) (k : Lang) :
    (bump l k).map Prod.fst =
      if k ∈ l.map Prod.fst then l.map Prod.fst else l.map Prod.fst ++ [k] := by
  induction l with
  | nil => simp [bump]
  | cons a t ih =>
    obtain ⟨a1, a2⟩ := a
    by_cases h : a1 = k
    · simp [bump, h]
    · simp only [bump, if_neg h, List.map_cons, ih]
      by_cases hk : k ∈ t.map Prod.fst <;>
        simp [hk, Ne.symm h, List.mem_cons]

theorem bump_fst_nodup (l : List (Lang × ℕ)) (k : Lang)
    (h : (l.map Prod.fst).Nodup) : ((bump l k).map Prod.fst).Nodup := by
  rw [bump_fst]
  split_ifs with hk
  · exact h
  · refine List.Nodup.append h (List.nodup_singleton k) ?_
    intro a ha hb
    rw [List.mem_singleton] at hb
    subst hb
    exact hk ha

theorem foldl_bump_nodup (cs : List Lang) :
    ∀ acc, (acc.map Prod.fst).Nodup → ((cs.foldl bump acc).map Prod.fst).Nodup := by
  induction cs with
  | nil => intro acc h; simpa using h
  | cons c t ih =>
    intro acc h
    rw [List.foldl_cons]
    exact ih (bump acc c) (bump_fst_nodup acc c h)

theorem countLangs_nodup (cs : List Lang) : ((countLangs cs).map Prod.fst).Nodup :=
  foldl_bump_nodup cs [] (by simp)

theorem countLangs_length_le (cs : List Lang) : (countLangs cs).length ≤ 5 := by
  have h := countLangs_nodup cs
  have hlen : (countLangs cs).length = ((countLangs cs).map Prod.fst).length := by simp
  rw [hlen]
  calc ((countLangs cs).map Prod.fst).length ≤ Fintype.card Lang :=
        List.Nodup.length_le_card h
    _ = 5 := rfl

theorem cntL_bump_self (l : List (Lang × ℕ)) (k : Lang) :
    cntL (bump l k) k = cntL l k + 1 := by
  induction l with
  | nil => simp [bump, cntL]
  | cons a t ih =>
    obtain ⟨a1, a2⟩ := a
    by_cases h : a1 = k <;> simp [bump, h, cntL, ih]

theorem cntL_bump_ne (l : List (Lang × ℕ)) (j k : Lang) (h : j ≠ k) :
    cntL (bump l k) j = cntL l j := by
  induction l with
  | nil => simp [bump, cntL, Ne.symm h]
  | cons a t ih =>
    obtain ⟨a1, a2⟩ := a
    by_cases ha : a1 = k
    · subst ha
      simp [bump, cntL, Ne.symm h]
    · by_cases hj : a1 = j
      · subst hj
        simp [bump, ha, cntL, h, ih]
      · simp [bump, ha, cntL, hj, ih]

theorem foldl_bump_cnt (cs : List Lang) :
    ∀ acc k, cntL (cs.foldl bump acc) k = cntL acc k + cs.count k := by
  induction cs with
  | nil => intro acc k; simp
  | cons c t ih =>
    intro acc k
    rw [List.foldl_cons, ih (bump acc c) k]
    by_cases h : c = k
    · subst h
      rw [cntL_bump_self]
      simp [List.count_cons]
      omega
    · rw [cntL_bump_ne acc k c (Ne.symm h)]
      simp [List.count_cons, Ne.symm h]

theorem countLangs_cnt (cs : List Lang) (k : Lang) :
    cntL (countLangs cs) k = cs.count k := by
  simpa [countLangs, cntL] using foldl_bump_cnt cs [] k

theorem cntL_of_mem (l : List (Lang × ℕ)) (k : Lang) (n : ℕ)
    (hnd : (l.map Prod.fst).Nodup) (hm : (k, n) ∈ l) : cntL l k = n := by
  induction l with
  | nil => simp at hm
  | cons a t ih =>
    obtain ⟨a1, a2⟩ := a
    simp only [List.map_cons, List.nodup_cons] at hnd
    rcases List.mem_cons.mp hm with heq | hmt
    · rw [Prod.mk.injEq] at heq
      obtain ⟨rfl, rfl⟩ := heq
      simp [cntL]
    · have hk : a1 ≠ k := by
        intro hak
        exact hnd.1 (by simpa [hak] using List.mem_map_of_mem Prod.fst hmt)
      simp [cntL, hk, ih hnd.2 hmt]

theorem sum_map_div_eq (l : List (Lang × ℕ)) (T : ℚ) :
    (l.map (fun e => (e.2 : ℚ) / T)).sum = (((l.map Prod.snd).sum : ℕ) : ℚ) / T := by
  induction l with
  | nil => simp
  | cons a t ih =>
    simp only [List.map_cons, List.sum_cons, ih]
    push_cast
    ring

theorem sum_round3_drift (T : ℚ) (l : List (Lang × ℕ)) :
    |(l.map (fun e => round3q ((e.2 : ℚ) / T))).sum -
      (l.map (fun e => (e.2 : ℚ) / T)).sum| ≤ (l.length : ℚ) * (1/2000) := by
  induction l with
  | nil => simp
  | cons a t ih =>
    simp only [List.map_cons, List.sum_cons, List.length_cons]
    set x : ℚ := (a.2 : ℚ) / T with hx
    set s1 := (t.map (fun e => round3q ((e.2 : ℚ) / T))).sum with hs1
    set s2 := (t.map (fun e => (e.2 : ℚ) / T)).sum with hs2
    have h1 := abs_round3q_sub x
    have htri : |round3q x + s1 - (x + s2)| ≤ |round3q x - x| + |s1 - s2| := by
      have heq : round3q x + s1 - (x + s2) = (round3q x - x) + (s1 - s2) := by ring
      rw [heq]
      exact abs_add _ _
    have hsum := le_trans htri (add_le_add h1 ih)
    push_cast
    linarith

theorem mix_entry_eq (langs : List Lang) (T : ℚ) (kv : Lang × ℚ) (hT : 0 ≤ T)
    (hm : kv ∈ (countLangs langs).map (fun e => (e.1, round3q ((e.2 : ℚ) / T)))) :
    0 ≤ kv.2 ∧ kv.2 = round3q ((langs.count kv.1 : ℚ) / T) := by
  obtain ⟨e, he, rfl⟩ := List.mem_map.mp hm
  have hpair : (e.1, e.2) ∈ countLangs langs := by
    rw [Prod.mk.eta]; exact he
  have h1 : cntL (countLangs langs) e.1 = e.2 :=
    cntL_of_mem _ _ _ (countLangs_nodup langs) hpair
  have h2 : langs.count e.1 = e.2 := by rw [← countLangs_cnt langs e.1, h1]
  constructor
  · exact round3q_nonneg _ (div_nonneg (by positivity) hT)
  · simp only [h2]

theorem mix_sum_near_one (langs : List Lang) (T : ℚ)
    (hT : T = (langs.length : ℚ)) (hne : langs ≠ []) :
    |(((countLangs langs).map
        (fun e => (e.1, round3q ((e.2 : ℚ) / T)))).map Prod.snd).sum - 1| ≤ 1/100 := by
  have hpos : (0 : ℚ) < T := by
    rw [hT]
    exact_mod_cast List.length_pos.mpr hne
  have hmap : ((countLangs langs).map
      (fun e => (e.1, round3q ((e.2 : ℚ) / T)))).map Prod.snd =
      (countLangs langs).map (fun e => round3q ((e.2 : ℚ) / T)) := by
    rw [List.map_map]
    rfl
  rw [hmap]
  have hexact : ((countLangs langs).map (fun e => (e.2 : ℚ) / T)).sum = 1 := by
    rw [sum_map_div_eq, countLangs_sum, ← hT]
    exact div_self (ne_of_gt hpos)
  have hdrift := sum_round3_drift T (countLangs langs)
  have hlen : ((countLangs langs).length : ℚ) ≤ 5 := by
    exact_mod_cast countLangs_length_le langs
  rw [hexact] at hdrift
  have hnn : (0:ℚ) ≤ ((countLangs langs).length : ℚ) := by positivity
  nlinarith [abs_nonneg (((countLangs langs).map (fun e => round3q ((e.2 : ℚ) / T))).sum - 1)]

/-! ## C6 -/

/-- **C6**: for every input text with at least one token, every value of
`language_mix` is non-negative and equals that tag's token count divided by
the total token count rounded to 3 decimals, and the values sum to 1.0
within ±0.01. -/
theorem language_mix_proportions (text : String)
    (h : (analyseCodeswitch text).tokens ≠ []) :
    (∀ kv ∈ (analyseCodeswitch text).language_mix,
      0 ≤ kv.2 ∧
      kv.2 = round3q
        ((((analyseCodeswitch text).tokens.map TokenAnalysis.lang).count kv.1 : ℚ) /
          ((analyseCodeswitch text).tokens.length : ℚ))) ∧
    |((analyseCodeswitch text).language_mix.map Prod.snd).sum - 1| ≤ 1/100 := by
  have hmix : (analyseCodeswitch text).language_mix =
      (countLangs ((analyseCodeswitch text).tokens.map TokenAnalysis.lang)).map
        (fun e => (e.1, round3q ((e.2 : ℚ) /
          ((max (analyseCodeswitch text).tokens.length 1 : ℕ) : ℚ)))) := rfl
  have hne : (analyseCodeswitch text).tokens.map TokenAnalysis.lang ≠ [] := by
    intro hc
    exact h (List.map_eq_nil_iff.mp hc)
  have hpos : 0 < (analyseCodeswitch text).tokens.length := List.length_pos.mpr h
  have hmax : max (analyseCodeswitch text).tokens.length 1 =
      (analyseCodeswitch text).tokens.length := by omega
  have hlenmap : ((analyseCodeswitch text).tokens.map TokenAnalysis.lang).length =
      (analyseCodeswitch text).tokens.length := by simp
  have hT : ((max (analyseCodeswitch text).tokens.length 1 : ℕ) : ℚ) =
      (((analyseCodeswitch text).tokens.map TokenAnalysis.lang).length : ℚ) := by
    rw [hmax, hlenmap]
  constructor
  · intro kv hkv
    rw [hmix] at hkv
    have := mix_entry_eq _ _ kv (by positivity) hkv
    rw [hT, hlenmap] at this
    exact this
  · rw [hmix]
    have := mix_sum_near_one ((analyseCodeswitch text).tokens.map TokenAnalysis.lang)
      ((max (analyseCodeswitch text).tokens.length 1 : ℕ) : ℚ) hT hne
    exact this

/-- Witness for C6 at the concrete input `"hello world"`. -/
theorem language_mix_proportions_witness :
    (analyseCodeswitch "hello world").tokens ≠ [] ∧
    ((∀ kv ∈ (analyseCodeswitch "hello world").language_mix,
      0 ≤ kv.2 ∧
      kv.2 = round3q
        ((((analyseCodeswitch "hello world").tokens.map TokenAnalysis.lang).count kv.1 : ℚ) /
          ((analyseCodeswitch "hello world").tokens.length : ℚ))) ∧
    |((analyseCodeswitch "hello world").language_mix.map Prod.snd).sum - 1| ≤ 1/100) :=
  ⟨by with_unfolding_all decide,
   language_mix_proportions "hello world" (by with_unfolding_all decide)⟩

/-! ## C2 -/

/-- **C2**: token classification follows the specified cascade in the
specified order: empty-after-stripping → `unk`/0.5; hyphen with more than
one script → `mixed`/0.7 (precedence over the remaining rules); all
characters in one script → that script with `min(0.95, 0.8 + 0.15·ratio)`;
`ratio ≥ 0.8` → dominant script with `ratio` rounded to 2 decimals; else
`mixed` with `ratio` rounded to 2 decimals. -/
theorem classifyToken_cascade (token : String) :
    (classifyToken token).1 = (classifyCascadeSpec token).1 ∧
    (classifyToken token).2.1 = (classifyCascadeSpec token).2 := by
  simp only [classifyToken, classifyCascadeSpec]
  split_ifs <;> exact ⟨rfl, rfl⟩

/-! ## C10 -/

theorem foldl_bump_unk (l : List Lang) (h : ∀ x ∈ l, x = Lang.unk) (m : ℕ) :
    l.foldl bump [(Lang.unk, m)] = [(Lang.unk, m + l.length)] := by
  induction l generalizing m with
  | nil => simp
  | cons c t ih =>
    have hc : c = Lang.unk := h c (List.mem_cons_self c t)
    subst hc
    rw [List.foldl_cons]
    have : bump [(Lang.unk, m)] Lang.unk = [(Lang.unk, m + 1)] := by simp [bump]
    rw [this, ih (fun x hx => h x (List.mem_cons_of_mem _ hx)) (m + 1)]
    simp
    omega

theorem countLangs_unk (l : List Lang) (hne : l ≠ []) (h : ∀ x ∈ l, x = Lang.unk) :
    countLangs l = [(Lang.unk, l.length)] := by
  cases l with
  | nil => exact absurd rfl hne
  | cons c t =>
    have hc : c = Lang.unk := h c (List.mem_cons_self c t)
    subst hc
    unfold countLangs
    rw [List.foldl_cons]
    have hb : bump [] Lang.unk = [(Lang.unk, 1)] := by simp [bump]
    rw [hb, foldl_bump_unk t (fun x hx => h x (List.mem_cons_of_mem _ hx)) 1]
    simp
    omega

/-- **C10**: a non-empty token consisting only of ASCII digits is tagged
`unk` with confidence 0.95: the digits survive the word-character stripping,
all fall in the `unk` character class, and the token takes the
all-characters-in-one-script branch with confidence
`min(0.95, 0.8 + 0.15·1)`, not the punctuation branch. -/
theorem digit_token_classified_unk (token : String)
    (hne : token.data ≠ [])
    (hdig : ∀ c ∈ token.data, 48 ≤ c.toNat ∧ c.toNat ≤ 57) :
    (classifyToken token).1 = Lang.unk ∧ (classifyToken token).2.1 = 95/100 := by
  have hlen0 : token.data.length ≠ 0 := by
    intro h0
    exact hne (List.eq_nil_of_length_eq_zero h0)
  have hclean : stripNonWord token = token.data := by
    apply List.filter_eq_self.mpr
    intro c hc
    have h1 := hdig c hc
    simp only [isWordChar, decide_eq_true_eq]
    omega
  have hcharunk : ∀ x ∈ token.data.map charLang, x = Lang.unk := by
    intro x hx
    obtain ⟨c, hc, rfl⟩ := List.mem_map.mp hx
    have h1 := hdig c hc
    have hta : ¬ (0x0B80 ≤ c.toNat ∧ c.toNat ≤ 0x0BFF) := by omega
    have hml : ¬ (0x0D00 ≤ c.toNat ∧ c.toNat ≤ 0x0D7F) := by omega
    have hen : ¬ ((65 ≤ c.toNat ∧ c.toNat ≤ 90) ∨ (97 ≤ c.toNat ∧ c.toNat ≤ 122)) := by omega
    simp [charLang, hta, hml, hen]
  have hmapne : token.data.map charLang ≠ [] := by
    simpa using hne
  have hmap : countLangs (token.data.map charLang) = [(Lang.unk, token.data.length)] := by
    rw [countLangs_unk _ hmapne hcharunk]
    simp
  have hratio : ((token.data.length : ℚ)) / ((token.data.length : ℚ)) = 1 :=
    div_self (by exact_mod_cast hlen0)
  simp only [classifyToken, stripNonWord] at *
  rw [hclean, hmap]
  rw [if_neg hne]
  have h2 : ¬ (token.data.contains '-' = true ∧
      1 < ([(Lang.unk, token.data.length)] : List (Lang × ℕ)).length) := by
    simp
  rw [if_neg h2]
  rw [if_pos (by simp : ([(Lang.unk, token.data.length)] : List (Lang × ℕ)).length = 1)]
  constructor
  · rfl
  · show min (95/100 : ℚ)
      (8/10 + 15/100 * ((token.data.length : ℚ) / (token.data.length : ℚ))) = 95/100
    rw [hratio]
    norm_num

/-- Witness for C10 at the concrete token `"123"`. -/
theorem digit_token_classified_unk_witness :
    "123".data ≠ [] ∧ (∀ c ∈ "123".data, 48 ≤ c.toNat ∧ c.toNat ≤ 57) ∧
    ((classifyToken "123").1 = Lang.unk ∧ (classifyToken "123").2.1 = 95/100) :=
  ⟨by decide, by decide,
   digit_token_classified_unk "123" (by decide) (by decide)⟩

/-! ## C3 -/

/-- **C3** counterexample: at the input `"motor noise"` the device and
symptom tables match (0.85 each) and the component table does not (0.3);
the extractor's confidence is 0.67 — the mean rounded to two decimals —
and not the exact mean 2/3 the claim states. -/
theorem rule_confidence_counterexample :
    matchTable (pyLower "motor noise") clDEVICES = ("motor pump", 85/100) ∧
    matchTable (pyLower "motor noise") clSYMPTOMS = ("noise", 85/100) ∧
    matchTable (pyLower "motor noise") clCOMPONENTS = ("unknown", 3/10) ∧
    (ruleExtract "motor noise").confidence_score = 67/100 ∧
    (67/100 : ℚ) ≠ (85/100 + 85/100 + 3/10) / 3 := by
  refine ⟨?_, ?_, ?_, ?_, ?_⟩ <;> with_unfolding_all decide

/-- **C3** (amended): for every input string, the rule-based extractor's
final confidence equals the mean of the three table-match confidences
(0.85 matched / 0.3 unmatched) **rounded to two decimals**, reduced by the
0.15 penalty with floor 0.1 when the symptom table is unmatched. -/
theorem rule_confidence_amended_eq (text : String) :
    (ruleExtract text).confidence_score = ruleConfidenceAmended text := by
  simp only [ruleExtract, ruleConfidenceAmended]

/-! ## C4 -/

/-- **C4**: for the zero-matching-keyword input `"xyz abc def"` the
rule-based extractor returns intent `"unclassified"`, device `"unknown"`,
and a confidence of at most 0.3. -/
theorem unmatched_input_unclassified :
    (ruleExtract "xyz abc def").intent = "unclassified" ∧
    (ruleExtract "xyz abc def").device = "unknown" ∧
    (ruleExtract "xyz abc def").confidence_score ≤ 3/10 := by
  refine ⟨?_, ?_, ?_⟩ <;> with_unfolding_all decide

/-! ## C5 -/

/-- **C5**: for the mixed-language input
`"Indha motor pump-la noise adhikama irukku, capacitor check pannanuma?"`
the rule-based extractor returns device `"motor pump"`, symptom `"noise"`,
suspected component `"capacitor"`, and urgency `medium`. -/
theorem mixed_language_scenario :
    (ruleExtract "Indha motor pump-la noise adhikama irukku, capacitor check pannanuma?").device
        = "motor pump" ∧
    (ruleExtract "Indha motor pump-la noise adhikama irukku, capacitor check pannanuma?").symptom
        = "noise" ∧
    (ruleExtract "Indha motor pump-la noise adhikama irukku, capacitor check pannanuma?").suspected_component
        = some "capacitor" ∧
    (ruleExtract "Indha motor pump-la noise adhikama irukku, capacitor check pannanuma?").urgency
        = Urgency.medium := by
  refine ⟨?_, ?_, ?_, ?_⟩ <;> with_unfolding_all decide

/-! ## C1 -/

/-- **C1**: `extract_intent` is total (it always returns an `IntentResult`;
in the embedding all provider failures are explicit `Except` values), and
whenever every configured LLM provider fails — a call error, or JSON still
unparsable after the single repair retry, i.e. `_call_and_parse` returns
no result for both Groq and Featherless — the returned record is exactly
the rule-based extractor's output for that text, for every provider
configuration. -/
theorem extract_intent_total_fallback (llmProvider : String)
    (groqCall featherlessCall : CallFn)
    (parse : String → String → Option IntentResult) (text : String)
    (hg : callAndParse groqCall parse (intentMessages text) text = none)
    (hf : callAndParse featherlessCall parse (intentMessages text) text = none) :
    extractIntent llmProvider groqCall featherlessCall parse text = ruleExtract text := by
  have hg' : groqExtract groqCall parse text = none := hg
  have hf' : llmExtract featherlessCall parse text = none := hf
  simp only [extractIntent]
  split_ifs with h1 h2 <;> simp [hg', hf']

/-- Witness for C1: providers whose every call raises, on a concrete text. -/
theorem extract_intent_total_fallback_witness :
    callAndParse (fun _ => Except.error ()) (fun _ _ => none)
        (intentMessages "motor not working") "motor not working" = none ∧
    extractIntent "groq" (fun _ => Except.error ()) (fun _ => Except.error ())
        (fun _ _ => none) "motor not working" = ruleExtract "motor not working" :=
  ⟨rfl, extract_intent_total_fallback "groq" _ _ _ _ rfl rfl⟩

/-! ## C7 -/

/-- **C7**: dossier generation is a pure function of (transcript,
code-switch result, intent record, current time): with the same clock,
the same configuration and the same process hash function — the three
ambient inputs of `generate_report`, made explicit in the embedding — two
invocations on identical inputs yield identical markdown. -/
theorem generate_report_deterministic (now₁ now₂ : PyDateTime) (s₁ s₂ : ClaraSettings)
    (h₁ h₂ : String → ℤ) (transcript : String)
    (cs : CodeSwitchResult) (intent : IntentResult)
    (hnow : now₁ = now₂) (hs : s₁ = s₂) (hh : h₁ = h₂) :
    generateReport now₁ s₁ h₁ transcript cs intent =
    generateReport now₂ s₂ h₂ transcript cs intent := by
  rw [hnow, hs, hh]

/-- Witness for C7 at a concrete clock, configuration and input. -/
theorem generate_report_deterministic_witness :
    (⟨2025, 1, 2, 3, 4, 5⟩ : PyDateTime) = ⟨2025, 1, 2, 3, 4, 5⟩ ∧
    (⟨"dummy", true⟩ : ClaraSettings) = ⟨"dummy", true⟩ ∧
    (fun _ : String => (42 : ℤ)) = (fun _ : String => (42 : ℤ)) ∧
    generateReport ⟨2025, 1, 2, 3, 4, 5⟩ ⟨"dummy", true⟩ (fun _ => 42) "hello"
        (analyseCodeswitch "hello") (ruleExtract "hello") =
      generateReport ⟨2025, 1, 2, 3, 4, 5⟩ ⟨"dummy", true⟩ (fun _ => 42) "hello"
        (analyseCodeswitch "hello") (ruleExtract "hello") :=
  ⟨rfl, rfl, rfl,
   generate_report_deterministic _ _ _ _ _ _ _ _ _ rfl rfl rfl⟩

/-! ## C8 -/

/-- **C8**: for a dossier generated from an intent record whose symptom is
`"unknown"`, the symptom completeness check fails, so at most 4 of the 5
checks pass and the completeness score is at most 0.8; and the emitted
assumption-flag list contains the generic-fault-branch line. -/
theorem unknown_symptom_completeness (transcript : String) (intent : IntentResult)
    (isMulti : Bool) (h : intent.symptom = "unknown") :
    completenessPassed transcript intent ≤ 4 ∧
    completenessPct transcript intent ≤ 8/10 ∧
    "Symptom could not be specifically classified; generic fault branch applied."
      ∈ assumptionFlags intent isMulti := by
  have hsym : pyStrip (pyLower intent.symptom) ∈ genericSymptoms := by
    rw [h]; decide
  have hpassed : completenessPassed transcript intent ≤ 4 := by
    simp only [completenessPassed, completenessChecks, List.countP_cons, List.countP_nil,
      hsym]
    simp +decide [hsym]
    split_ifs <;> omega
  refine ⟨hpassed, ?_, ?_⟩
  · have hlen : ((completenessChecks transcript intent).length : ℚ) = 5 := by
      simp [completenessChecks]
    rw [completenessPct, hlen]
    have h4 : ((completenessPassed transcript intent : ℕ) : ℚ) ≤ 4 := by
      exact_mod_cast hpassed
    linarith
  · simp only [assumptionFlags, hsym, if_true]
    split_ifs <;> simp_all

/-- Witness for C8 at a fully unresolved concrete intent record. -/
theorem unknown_symptom_completeness_witness :
    ({ intent := "unknown", device := "unknown", symptom := "unknown",
       suspected_component := none, user_query := "", urgency := Urgency.low,
       confidence_score := 3/10 } : IntentResult).symptom = "unknown" ∧
    (completenessPassed "hi"
      { intent := "unknown", device := "unknown", symptom := "unknown",
        suspected_component := none, user_query := "", urgency := Urgency.low,
        confidence_score := 3/10 } ≤ 4 ∧
     completenessPct "hi"
      { intent := "unknown", device := "unknown", symptom := "unknown",
        suspected_component := none, user_query := "", urgency := Urgency.low,
        confidence_score := 3/10 } ≤ 8/10 ∧
     "Symptom could not be specifically classified; generic fault branch applied."
       ∈ assumptionFlags
         { intent := "unknown", device := "unknown", symptom := "unknown",
           suspected_component := none, user_query := "", urgency := Urgency.low,
           confidence_score := 3/10 } false) :=
  ⟨rfl, unknown_symptom_completeness "hi" _ false rfl⟩

/-! ## C9 -/

/-- **C9**: `summarise_report` is total (in the embedding provider
exceptions are explicit `Except` values): a provider whose call fails or
whose summary is shorter than 10 or longer than 1000 characters is treated
as a failure and the chain advances past it; and when every provider has
failed, the returned core summary is the regex-extracted Executive-Summary
section of the document (with its internal line-scan and first-300-character
fallbacks) and the result is marked `fallback_used = true`. -/
theorem summarise_report_fallback (reportText : String) (fn : SummariseFn)
    (rest : List SummariseFn)
    (h : ∀ r, fn reportText = Except.ok r →
      r.summary.length < 10 ∨ 1000 < r.summary.length) :
    summariseReport (fn :: rest) reportText = summariseReport rest reportText ∧
    (summariseReport [] reportText).core_summary = extractExecutiveSummary reportText ∧
    (summariseReport [] reportText).fallback_used = true := by
  refine ⟨?_, rfl, rfl⟩
  simp only [summariseReport, summariseLoop]
  cases hc : fn reportText with
  | error e => rfl
  | ok r =>
    dsimp only
    rw [if_pos (h r hc)]

/-- Witness for C9: a provider returning a too-short summary on a concrete
document. -/
theorem summarise_report_fallback_witness :
    ("short" : String).length < 10 ∧
    (summariseReport [fun _ => Except.ok ⟨"short", "groq", "m", 1⟩] "doc" =
      summariseReport [] "doc" ∧
     (summariseReport [] "doc").core_summary = extractExecutiveSummary "doc" ∧
     (summariseReport [] "doc").fallback_used = true) :=
  ⟨by decide,
   summarise_report_fallback "doc" (fun _ => Except.ok ⟨"short", "groq", "m", 1⟩) []
     (fun r hr => by cases hr; exact Or.inl (by decide))⟩
